import Mathlib

/-!
# Verification of the ApiWp WhatsApp microservice

A shallow embedding, in Lean 4, of the core logic of the `ApiWp`
notification-relay service (a single-file Express/Baileys microservice),
together with theorems checking the natural-language specification of the
service against the code.

Strings are modelled as `List Char`.  Asynchronous effects (timers, message
sends, log lines, QR rendering) are modelled as explicit effect lists.
`Math.random()` draws are modelled as a rational parameter in `[0, 1)`.
JavaScript exceptions are modelled with `Except`; JSON request-body values
with a small `JsValue` type carrying JavaScript truthiness.
-/

set_option maxRecDepth 8192

namespace ApiWp

/-! ## Address normalization (`formatPhoneNumber`) -/

/-- The fixed WhatsApp transport-address suffix appended by
`formatPhoneNumber` (`return cleaned + '@s.whatsapp.net'`). -/
def waSuffix : List Char := "@s.whatsapp.net".data

/-- The Brazilian country-code prefix `'55'` used by `formatPhoneNumber`. -/
def countryCode : List Char := "55".data

/-- `// If starts with 0, remove it` — the step
`if (cleaned.startsWith('0')) cleaned = cleaned.substring(1)`. -/
def dropLeadingZero (cleaned : List Char) : List Char :=
  if ['0'].isPrefixOf cleaned then cleaned.drop 1 else cleaned

/-- `// If doesn't start with country code, add Brazil (55)` — the step
`if (!cleaned.startsWith('55')) cleaned = '55' + cleaned`. -/
def ensureCountryCode (cleaned : List Char) : List Char :=
  if countryCode.isPrefixOf cleaned then cleaned else countryCode ++ cleaned

/-- `formatPhoneNumber(number)` from the source: strip all non-digits
(`number.replace(/\D/g, '')`), drop one leading zero, prepend `'55'` when
absent, and append `'@s.whatsapp.net'`. -/
def formatPhoneNumber (number : List Char) : List Char :=
  ensureCountryCode (dropLeadingZero (number.filter Char.isDigit)) ++ waSuffix

/-- The same normalization transcribed independently from the
specification's words: "strip all non-digit characters; if the remaining
digits start with a leading zero, drop it; if the result does not already
start with the configured default country-code prefix, prepend it; append
the fixed transport-address suffix". -/
def specNormalize (x : List Char) : List Char :=
  let digits := x.filter Char.isDigit
  let noLeadingZero := if digits.head? = some '0' then digits.tail else digits
  let withPrefix :=
    if "55".data.isPrefixOf noLeadingZero then noLeadingZero
    else "55".data ++ noLeadingZero
  withPrefix ++ "@s.whatsapp.net".data

/-! ## Anti-spam random delay (`randomDelay`) -/

/-- `Math.floor(Math.random() * (max - min + 1)) + min`, with the
`Math.random()` draw `r` modelled as a rational in `[0, 1)`. -/
def randomDelayMs (r : ℚ) (min max : ℤ) : ℤ :=
  ⌊r * ((max - min + 1 : ℤ) : ℚ)⌋ + min

/-- `randomDelay()` as called by `sendWhatsAppMessage`, with the default
arguments `min = 1000`, `max = 3000`. -/
def randomDelayDefault (r : ℚ) : ℤ :=
  randomDelayMs r 1000 3000

/-! ## JavaScript request-body values and truthiness -/

/-- A JSON/JavaScript value as it can appear in a parsed request body.
Numbers are restricted to integers (the claims only exercise strings and
the falsy number `0`). -/
inductive JsValue
  | vStr (s : List Char)
  | vNum (n : ℤ)
  | vBool (b : Bool)
  | vNull
  | vUndefined
deriving DecidableEq

/-- JavaScript truthiness, as tested by `if (!number || !code)` etc.:
`''`, `0`, `false`, `null` and `undefined` (absent field) are falsy. -/
def truthy : JsValue → Bool
  | .vStr s => !s.isEmpty
  | .vNum n => n != 0
  | .vBool b => b
  | .vNull => false
  | .vUndefined => false

/-- JavaScript string conversion as performed by template-literal
interpolation. -/
def jsToString : JsValue → List Char
  | .vStr s => s
  | .vNum n => (toString n).data
  | .vBool b => (toString b).data
  | .vNull => "null".data
  | .vUndefined => "undefined".data

/-! ## Effects

The service's observable side effects, reified so theorems can count
them: one-shot timers (`setTimeout`), outbound transport sends
(`sock.sendMessage`), log lines and QR rendering. -/

inductive Effect
  | delay (ms : ℤ)
  | sendMessage (jid : List Char) (text : List Char)
  | logLine (text : List Char)
  | scheduleReconnect (ms : ℤ)
  | printQR (code : List Char)
deriving DecidableEq

/-- The texts of the `sendMessage` transport calls in an effect list, in
order.  Used to count outbound sends. -/
def sentTexts (effs : List Effect) : List (List Char) :=
  effs.filterMap fun e =>
    match e with
    | .sendMessage _ t => some t
    | _ => none

/-- The delays of the scheduled reconnect timers in an effect list, in
order.  Used to count reconnect attempts. -/
def reconnectDelays (effs : List Effect) : List ℤ :=
  effs.filterMap fun e =>
    match e with
    | .scheduleReconnect ms => some ms
    | _ => none

/-! ## Connection state and `sendWhatsAppMessage` -/

/-- The process-local connection state: the module-level mutable
`isConnected` flag, and whether the module-level `sock` variable holds a
live session object (`sock !== null`). -/
structure ConnState where
  isConnected : Bool
  sockExists : Bool
deriving DecidableEq

/-- `sendWhatsAppMessage(number, message)`.  The `Math.random()` draw used
by the `randomDelay()` call is passed in as `r`.  Throws (models
`throw new Error('WhatsApp not connected')`) unless the connected flag is
set and a session object exists; otherwise formats the number, waits the
anti-spam delay, hands the text to the transport and logs. -/
def sendWhatsAppMessage (conn : ConnState) (r : ℚ) (number message : List Char) :
    Except (List Char) (List Effect) :=
  if !conn.isConnected || !conn.sockExists then
    .error "WhatsApp not connected".data
  else
    let formattedNumber := formatPhoneNumber number
    .ok [Effect.delay (randomDelayDefault r),
         Effect.sendMessage formattedNumber message,
         Effect.logLine ("📤 Message sent to ".data ++ number)]

/-- The sends performed by a `sendWhatsAppMessage` call: none when it
threw. -/
def sendsOf : Except (List Char) (List Effect) → List (List Char)
  | .error _ => []
  | .ok effs => sentTexts effs

/-! ## Connection lifecycle (`connection.update` handler) -/

/-- Baileys' `DisconnectReason.loggedOut` status code. -/
def DisconnectReason.loggedOut : ℤ := 401

/-- A `connection.update` event payload: the `connection` field (the
string `'close'`, `'open'` or `'connecting'`, or absent), the optional
`lastDisconnect?.error?.output?.statusCode`, and the optional `qr`
string. -/
structure ConnUpdate where
  connection : Option (List Char)
  lastDisconnectStatusCode : Option ℤ
  qr : Option (List Char)

/-- The body of `sock.ev.on('connection.update', ...)` from
`connectToWhatsApp`, acting on the `isConnected` flag and emitting
effects.  On `'close'`, `shouldReconnect` is
`statusCode !== DisconnectReason.loggedOut`; if so, a single 5-second
reconnect timer is scheduled (and the flag is left untouched); otherwise
the flag is cleared.  On `'open'` the flag is set.  Informational log
lines are elided except where they mark a branch. -/
def handleConnectionUpdate (isConnected : Bool) (u : ConnUpdate) :
    Bool × List Effect :=
  let qrEffects : List Effect :=
    match u.qr with
    | some q => [Effect.logLine "📱 QR Code generated - Scan with WhatsApp".data,
                 Effect.printQR q]
    | none => []
  if u.connection = some "close".data then
    -- const shouldReconnect = statusCode !== DisconnectReason.loggedOut
    if u.lastDisconnectStatusCode ≠ some DisconnectReason.loggedOut then
      (isConnected,
       qrEffects ++ [Effect.logLine "Reconnecting in 5 seconds...".data,
                     Effect.scheduleReconnect 5000])
    else
      (false,
       qrEffects ++ [Effect.logLine "❌ Logged out. Please restart and scan QR code again.".data])
  else if u.connection = some "open".data then
    (true, qrEffects ++ [Effect.logLine "✅ WhatsApp connected successfully!".data])
  else if u.connection = some "connecting".data then
    (isConnected, qrEffects ++ [Effect.logLine "🔄 Connecting to WhatsApp...".data])
  else
    (isConnected, qrEffects)

/-! ## Session Store Adapter (`useSupabaseAuthState`) -/

/-- The auth-state record `{ creds, keys }` persisted to Supabase.  Both
sub-records are opaque blobs owned by Baileys; `none` models JavaScript
`null` / an absent sub-record. -/
structure AuthState where
  creds : Option (List Char)
  keys : Option (List Char)
deriving DecidableEq

/-- The empty state `{ creds: null, keys: null }` returned on first run or
on a degraded load. -/
def emptyAuthState : AuthState := ⟨none, none⟩

/-- What the Supabase `select ... single()` call can come back with:
a row (whose `auth_state` column may be null), the `PGRST116` no-rows
error, or any other retrieval error. -/
inductive LoadOutcome
  | success (authState : Option AuthState)
  | notFound
  | failure (msg : List Char)

/-- The `try` body of `loadState`: `PGRST116` returns the empty state,
any other error is thrown (`throw error`), and a found row returns
`data.auth_state || { creds: null, keys: null }`. -/
def loadStateBody : LoadOutcome → Except (List Char) AuthState
  | .notFound => .ok emptyAuthState
  | .failure m => .error m
  | .success a => .ok (a.getD emptyAuthState)

/-- `loadState` with its `catch`: any error thrown by the body is logged
and degraded to the empty state, so the caller never sees an exception. -/
def loadState (o : LoadOutcome) : Except (List Char) AuthState :=
  match loadStateBody o with
  | .ok s => .ok s
  | .error _ => .ok emptyAuthState

/-- What the Supabase `upsert` call can come back with. -/
inductive SaveOutcome
  | success
  | failure (msg : List Char)

/-- The `try` body of `saveState`: on success it logs, on a store error it
throws (`if (error) throw error`). -/
def saveStateBody : SaveOutcome → Except (List Char) (List Effect)
  | .success => .ok [Effect.logLine "✅ Auth state saved to Supabase".data]
  | .failure m => .error m

/-- `saveState` with its `catch`: a store failure is logged and dropped,
never propagated to the caller. -/
def saveState (o : SaveOutcome) : Except (List Char) (List Effect) :=
  match saveStateBody o with
  | .ok effs => .ok effs
  | .error m => .ok [Effect.logLine ("❌ Error saving auth state: ".data ++ m)]

/-! ## HTTP layer: responses, templates, endpoint handlers -/

/-- The JSON body of an HTTP response, together with its status code.
Fields that a given response does not carry are `none`. -/
structure Response where
  status : ℕ
  success : Bool
  error : Option (List Char)
  message : Option (List Char)
  numberEcho : Option (List Char)
  typeEcho : Option (List Char)
deriving DecidableEq

/-- A `res.status(s).json({ success: false, error: msg })` response. -/
def errorResponse (status : ℕ) (msg : List Char) : Response :=
  ⟨status, false, some msg, none, none, none⟩

/-- The OTP message template:
`🔐 *RachaAI* ... Seu código de ativação é: *CODE* ...`. -/
def otpMessage (code : List Char) : List Char :=
  "🔐 *RachaAI*\n\nSeu código de ativação é: *".data ++ code
    ++ "*\n\nUtilize-o para validar sua conta agora.".data

/-- The `type = 'D-1'` (due tomorrow) billing template. -/
def billingMessageDMinus1 (service value pixKey : List Char) : List Char :=
  "👋 Olá!\n\nSua parte da assinatura *".data ++ service
    ++ "* vence amanhã.\n\n💰 Valor: R$ ".data ++ value
    ++ "\n🔑 Chave Pix: `".data ++ pixKey
    ++ "`\n\nPague agora e evite transtornos!".data

/-- The `type = 'D0'` (due today) billing template. -/
def billingMessageD0 (service value pixKey : List Char) : List Char :=
  "⚠️ *Atenção!*\n\nSua fatura do *".data ++ service
    ++ "* vence *HOJE*.\n\nEvite a interrupção do serviço!\n\n💰 Valor: R$ ".data ++ value
    ++ "\n🔑 Chave Pix: `".data ++ pixKey ++ "`".data

/-- The `type = 'D+1'` (overdue) billing template. -/
def billingMessageDPlus1 (service value pixKey : List Char) : List Char :=
  "🚨 *PAGAMENTO ATRASADO*\n\nSua assinatura do *".data ++ service
    ++ "* venceu ontem.\n\nO dono do grupo já foi notificado.\n\n💰 Valor: R$ ".data ++ value
    ++ "\n🔑 Chave Pix: `".data ++ pixKey
    ++ "`\n\nRegularize agora para manter o acesso!".data

/-- The parsed body of a `POST /v1/send-otp` request. -/
structure OtpBody where
  number : JsValue
  code : JsValue
deriving DecidableEq

/-- The `POST /v1/send-otp` handler (after the API-key middleware).
Validates field truthiness (`if (!number || !code)`), builds the OTP
message, delegates to `sendWhatsAppMessage`, and maps a thrown error to a
500 response (with an error log) and success to a 200 response echoing
the formatted number. -/
def sendOtpHandler (conn : ConnState) (r : ℚ) (body : OtpBody) :
    Response × List Effect :=
  if !truthy body.number || !truthy body.code then
    (errorResponse 400 "Missing required fields: number, code".data, [])
  else
    let message := otpMessage (jsToString body.code)
    match sendWhatsAppMessage conn r (jsToString body.number) message with
    | .ok effs =>
        (⟨200, true, none, some "OTP sent successfully".data,
          some (formatPhoneNumber (jsToString body.number)), none⟩, effs)
    | .error e =>
        (errorResponse 500 e, [Effect.logLine ("❌ Error sending OTP: ".data ++ e)])

/-- The parsed body of a `POST /v1/notify-billing` request. -/
structure BillingBody where
  number : JsValue
  type : JsValue
  service : JsValue
  value : JsValue
  pixKey : JsValue
deriving DecidableEq

/-- The `POST /v1/notify-billing` handler (after the API-key middleware).
Validates field truthiness, switches on `type` (strict string equality
with `'D-1'`, `'D0'`, `'D+1'`; anything else is a 400), delegates to
`sendWhatsAppMessage`, and maps a thrown error to a 500 response and
success to a 200 response echoing `type` and the formatted number. -/
def notifyBillingHandler (conn : ConnState) (r : ℚ) (body : BillingBody) :
    Response × List Effect :=
  if !truthy body.number || !truthy body.type || !truthy body.service
      || !truthy body.value || !truthy body.pixKey then
    (errorResponse 400 "Missing required fields: number, type, service, value, pixKey".data, [])
  else
    let service := jsToString body.service
    let value := jsToString body.value
    let pixKey := jsToString body.pixKey
    let messageOpt : Option (List Char) :=
      if body.type = .vStr "D-1".data then
        some (billingMessageDMinus1 service value pixKey)
      else if body.type = .vStr "D0".data then
        some (billingMessageD0 service value pixKey)
      else if body.type = .vStr "D+1".data then
        some (billingMessageDPlus1 service value pixKey)
      else
        none
    match messageOpt with
    | none => (errorResponse 400 "Invalid type. Use: D-1, D0, or D+1".data, [])
    | some message =>
        match sendWhatsAppMessage conn r (jsToString body.number) message with
        | .ok effs =>
            (⟨200, true, none, some "Billing notification sent successfully".data,
              some (formatPhoneNumber (jsToString body.number)),
              some (jsToString body.type)⟩, effs)
        | .error e =>
            (errorResponse 500 e,
             [Effect.logLine ("❌ Error sending billing notification: ".data ++ e)])

/-- Substring test on character lists (`text.includes(needle)`):
`containsSub needle hay` is true when `needle` occurs contiguously in
`hay`. -/
def containsSub (needle : List Char) : List Char → Bool
  | [] => needle.isPrefixOf []
  | c :: rest => needle.isPrefixOf (c :: rest) || containsSub needle rest

/-- The `POST /v1/notify-billing` example fixture from the spec:
`type="D+1"`, `service="Netflix Premium"`, `value="14.90"`,
`pixKey="email@exemplo.com"`. -/
def billingFixture : BillingBody :=
  ⟨.vStr "11999999999".data, .vStr "D+1".data, .vStr "Netflix Premium".data,
   .vStr "14.90".data, .vStr "email@exemplo.com".data⟩

/-- The message text the fixture request produces. -/
def billingFixtureMessage : List Char :=
  billingMessageDPlus1 "Netflix Premium".data "14.90".data "email@exemplo.com".data

/-! ## Lemmas about address normalization -/

lemma countryCode_eq : countryCode = ['5', '5'] := rfl

/-- `dropLeadingZero` agrees with the specification's phrasing "if the
remaining digits start with a leading zero, drop it". -/
lemma dropLeadingZero_eq_spec (l : List Char) :
    dropLeadingZero l = if l.head? = some '0' then l.tail else l := by
  cases l with
  | nil => rfl
  | cons c t =>
    by_cases h : c = '0'
    · subst h
      simp [dropLeadingZero, List.isPrefixOf]
    · simp [dropLeadingZero, List.isPrefixOf, h, Ne.symm h]

/-- Every member of `dropLeadingZero l` is a member of `l`. -/
lemma mem_of_mem_dropLeadingZero {c : Char} {l : List Char}
    (h : c ∈ dropLeadingZero l) : c ∈ l := by
  unfold dropLeadingZero at h
  split at h
  · exact List.mem_of_mem_drop h
  · exact h

/-- `ensureCountryCode` always yields a list starting with `'55'`. -/
lemma ensureCountryCode_isPrefix (l : List Char) :
    countryCode.isPrefixOf (ensureCountryCode l) = true := by
  unfold ensureCountryCode
  split
  · assumption
  · exact List.isPrefixOf_iff_prefix.mpr (List.prefix_append _ _)

/-- `ensureCountryCode` preserves "every character is a digit". -/
lemma ensureCountryCode_digits {l : List Char} (h : ∀ c ∈ l, c.isDigit = true) :
    ∀ c ∈ ensureCountryCode l, c.isDigit = true := by
  intro c hc
  unfold ensureCountryCode at hc
  split at hc
  · exact h c hc
  · rw [List.mem_append] at hc
    rcases hc with hc | hc
    · rw [countryCode_eq] at hc
      rcases hc with _ | ⟨_, hc⟩
      · decide
      · rcases hc with _ | ⟨_, hc⟩
        · decide
        · cases hc
    · exact h c hc

/-- The normalized output decomposed: an all-digit trunk that starts with
`'55'`, followed by the transport suffix. -/
lemma formatPhoneNumber_decomp (x : List Char) :
    ∃ d : List Char, formatPhoneNumber x = d ++ waSuffix
      ∧ (∀ c ∈ d, c.isDigit = true) ∧ countryCode.isPrefixOf d = true := by
  refine ⟨ensureCountryCode (dropLeadingZero (x.filter Char.isDigit)), rfl, ?_, ?_⟩
  · exact ensureCountryCode_digits fun c hc =>
      List.of_mem_filter (mem_of_mem_dropLeadingZero hc)
  · exact ensureCountryCode_isPrefix _

/-! ## Claim theorems -/

/-- C2: for every input string, `formatPhoneNumber` computes its output
exactly as the specification describes (strip non-digits, drop one
leading zero, prepend `'55'` when absent, append `'@s.whatsapp.net'`);
in particular `"11999999999"` and `"011999999999"` both normalize to
`"5511999999999@s.whatsapp.net"`, and `"5511999999999"` keeps its digits
unchanged with the suffix appended exactly once. -/
theorem c2_formatPhoneNumber_follows_spec :
    (∀ x : List Char, formatPhoneNumber x = specNormalize x)
      ∧ formatPhoneNumber "11999999999".data = "5511999999999@s.whatsapp.net".data
      ∧ formatPhoneNumber "011999999999".data = "5511999999999@s.whatsapp.net".data
      ∧ formatPhoneNumber "5511999999999".data = "5511999999999@s.whatsapp.net".data := by
  refine ⟨?_, by decide, by decide, by decide⟩
  intro x
  unfold formatPhoneNumber specNormalize
  rw [dropLeadingZero_eq_spec]
  rfl

/-- C7: address normalization is total (a Lean function on all of
`List Char`) and idempotent on its own, suffix-bearing output:
`formatPhoneNumber (formatPhoneNumber x) = formatPhoneNumber x`. -/
theorem c7_normalize_idempotent (x : List Char) :
    formatPhoneNumber (formatPhoneNumber x) = formatPhoneNumber x := by
  obtain ⟨d, hx, hdig, hpre⟩ := formatPhoneNumber_decomp x
  rw [hx]
  obtain ⟨t, ht⟩ : ∃ t, d = '5' :: '5' :: t := by
    obtain ⟨t, ht⟩ := List.isPrefixOf_iff_prefix.mp hpre
    exact ⟨t, ht.symm⟩
  have h1 : (d ++ waSuffix).filter Char.isDigit = d := by
    rw [List.filter_append d waSuffix, List.filter_eq_self.mpr hdig]
    have hsuf : waSuffix.filter Char.isDigit = [] := by decide
    rw [hsuf, List.append_nil]
  have h2 : dropLeadingZero d = d := by
    rw [ht]
    simp [dropLeadingZero, List.isPrefixOf]
  have h3 : ensureCountryCode d = d := by
    unfold ensureCountryCode
    rw [if_pos hpre]
  unfold formatPhoneNumber
  rw [h1, h2, h3]

/-- C9: every `formatPhoneNumber` output begins with `'55'` and ends with
`'@s.whatsapp.net'`; the leading-zero drop is applied at most once, so an
input whose digit sequence begins `'00'` keeps the second zero in the
normalized number (`55` + `0` + remaining digits). -/
theorem c9_output_shape (x : List Char) :
    countryCode.isPrefixOf (formatPhoneNumber x) = true
      ∧ waSuffix <:+ formatPhoneNumber x
      ∧ (∀ rest : List Char, x.filter Char.isDigit = '0' :: '0' :: rest →
          formatPhoneNumber x = '5' :: '5' :: '0' :: rest ++ waSuffix) := by
  refine ⟨?_, ?_, ?_⟩
  · obtain ⟨d, hx, _, hpre⟩ := formatPhoneNumber_decomp x
    rw [hx, List.isPrefixOf_iff_prefix]
    exact (List.isPrefixOf_iff_prefix.mp hpre).trans (List.prefix_append _ _)
  · obtain ⟨d, hx, _, _⟩ := formatPhoneNumber_decomp x
    rw [hx]
    exact List.suffix_append _ _
  · intro rest h
    unfold formatPhoneNumber
    rw [h]
    have h1 : dropLeadingZero ('0' :: '0' :: rest) = '0' :: rest := by
      simp [dropLeadingZero, List.isPrefixOf]
    have h2 : ensureCountryCode ('0' :: rest) = '5' :: '5' :: '0' :: rest := by
      simp [ensureCountryCode, countryCode_eq, List.isPrefixOf]
    rw [h1, h2]

/-- Witness for C9 at a concrete input whose digits begin `'00'`:
`"0011"` normalizes to `"55011@s.whatsapp.net"`, keeping the second
zero. -/
theorem c9_output_shape_witness :
    formatPhoneNumber "0011".data = '5' :: '5' :: '0' :: ['1', '1'] ++ waSuffix :=
  (c9_output_shape "0011".data).2.2 ['1', '1'] (by decide)

/-- C1 counterexample: a `'close'` event with a transient disconnect
reason (status code 428, not the logged-out sentinel 401), processed while
the flag reads connected, leaves the `isConnected` flag `true` — the
claim that the flag then reads "not connected" is false on the code,
which clears the flag only in the logged-out branch. -/
theorem c1_counterexample :
    (handleConnectionUpdate true ⟨some "close".data, some 428, none⟩).1 = true := by
  decide

/-- C1 (amended): after a `'close'` event whose disconnect reason is not
the logged-out sentinel, the `isConnected` flag is left unchanged — in
particular it still reads connected if it previously did, so the health
check keeps reporting connected and the send precondition gate stays open
during the scheduled reconnect. -/
theorem c1_transient_close_keeps_flag (b : Bool) (u : ConnUpdate)
    (hclose : u.connection = some "close".data)
    (h : u.lastDisconnectStatusCode ≠ some DisconnectReason.loggedOut) :
    (handleConnectionUpdate b u).1 = b := by
  simp [handleConnectionUpdate, hclose, h]

/-- Witness for the amended C1: a transient close with an absent status
code, processed while disconnected, leaves the flag `false`. -/
theorem c1_transient_close_keeps_flag_witness :
    (handleConnectionUpdate false ⟨some "close".data, none, none⟩).1 = false :=
  c1_transient_close_keeps_flag false ⟨some "close".data, none, none⟩ rfl (by decide)

/-- C3: on a `'close'` event, a disconnect reason equal to the logged-out
sentinel schedules no reconnect timer, while any other reason (including
an absent one) schedules exactly one reconnect timer with a fixed
5-second (5000 ms) delay. -/
theorem c3_reconnect_scheduling (b : Bool) (u : ConnUpdate)
    (hclose : u.connection = some "close".data) :
    (u.lastDisconnectStatusCode = some DisconnectReason.loggedOut →
        reconnectDelays (handleConnectionUpdate b u).2 = [])
      ∧ (u.lastDisconnectStatusCode ≠ some DisconnectReason.loggedOut →
        reconnectDelays (handleConnectionUpdate b u).2 = [5000]) := by
  constructor
  · intro h
    cases hq : u.qr <;>
      simp [handleConnectionUpdate, hclose, h, hq, reconnectDelays]
  · intro h
    cases hq : u.qr <;>
      simp [handleConnectionUpdate, hclose, h, hq, reconnectDelays]

/-- Witness for C3: a close with an absent disconnect reason schedules
exactly one 5000 ms reconnect timer. -/
theorem c3_reconnect_scheduling_witness :
    reconnectDelays (handleConnectionUpdate true ⟨some "close".data, none, none⟩).2 = [5000] :=
  (c3_reconnect_scheduling true ⟨some "close".data, none, none⟩ rfl).2 (by decide)

/-- C4: a `sendWhatsAppMessage` call made while the connected flag is
false or no live session object exists throws the single "WhatsApp not
connected" error and performs zero transport sends. -/
theorem c4_send_requires_connection (conn : ConnState) (r : ℚ)
    (number message : List Char)
    (h : conn.isConnected = false ∨ conn.sockExists = false) :
    sendWhatsAppMessage conn r number message = .error "WhatsApp not connected".data
      ∧ sendsOf (sendWhatsAppMessage conn r number message) = [] := by
  rcases h with h | h <;>
    simp [sendWhatsAppMessage, sendsOf, h]

/-- Witness for C4: with the flag down (but a session object present),
the send throws "WhatsApp not connected" and sends nothing. -/
theorem c4_send_requires_connection_witness :
    sendWhatsAppMessage ⟨false, true⟩ 0 "11999999999".data "hello".data
        = .error "WhatsApp not connected".data
      ∧ sendsOf (sendWhatsAppMessage ⟨false, true⟩ 0 "11999999999".data "hello".data) = [] :=
  c4_send_requires_connection ⟨false, true⟩ 0 "11999999999".data "hello".data (Or.inl rfl)

/-- C5: the Session Store Adapter never raises to its caller: `loadState`
returns (never throws) on every outcome, yielding the empty non-null
state `{ creds: null, keys: null }` on a missing row and on any other
retrieval failure; `saveState` returns on every outcome, and on a store
failure its only caller-visible effect is a single log entry. -/
theorem c5_store_adapter_never_raises :
    (∀ o : LoadOutcome, ∃ s : AuthState, loadState o = .ok s)
      ∧ loadState .notFound = .ok ⟨none, none⟩
      ∧ (∀ m : List Char, loadState (.failure m) = .ok ⟨none, none⟩)
      ∧ (∀ o : SaveOutcome, ∃ effs : List Effect, saveState o = .ok effs)
      ∧ (∀ m : List Char, saveState (.failure m)
          = .ok [Effect.logLine ("❌ Error saving auth state: ".data ++ m)]) := by
  refine ⟨?_, rfl, fun m => rfl, ?_, fun m => rfl⟩
  · intro o
    cases o <;> exact ⟨_, rfl⟩
  · intro o
    cases o <;> exact ⟨_, rfl⟩

/-- C6 counterexample: it is not the case that every draw in `[0, 1)`
yields a delay strictly below 3000 ms — the draw `2000/2001` yields
exactly 3000 ms, because the code computes
`Math.floor(r * (max - min + 1)) + min`, whose range is the closed
interval `[1000, 3000]`. -/
theorem c6_counterexample :
    ¬ (∀ r : ℚ, 0 ≤ r → r < 1 →
        1000 ≤ randomDelayDefault r ∧ randomDelayDefault r < 3000) := by
  intro h
  have h2 := (h (2000/2001) (by norm_num) (by norm_num)).2
  have h3 : randomDelayDefault (2000/2001) = 3000 := by
    unfold randomDelayDefault randomDelayMs
    norm_num
  rw [h3] at h2
  exact absurd h2 (by norm_num)

/-- C6 (amended): for every draw `r` in `[0, 1)`, the computed delay lies
in the closed interval `[1000 ms, 3000 ms]` (the upper bound 3000 is
attained, not excluded). -/
theorem c6_delay_bounds (r : ℚ) (h0 : 0 ≤ r) (h1 : r < 1) :
    1000 ≤ randomDelayDefault r ∧ randomDelayDefault r ≤ 3000 := by
  unfold randomDelayDefault randomDelayMs
  constructor
  · have hfl : (0 : ℤ) ≤ ⌊r * ((3000 - 1000 + 1 : ℤ) : ℚ)⌋ := by
      apply Int.floor_nonneg.mpr
      positivity
    omega
  · have hfl : ⌊r * ((3000 - 1000 + 1 : ℤ) : ℚ)⌋ < 2001 := by
      apply Int.floor_lt.mpr
      push_cast
      nlinarith
    omega

/-- Witness for the amended C6 at the draw `r = 0`: the delay is within
`[1000, 3000]`. -/
theorem c6_delay_bounds_witness :
    1000 ≤ randomDelayDefault 0 ∧ randomDelayDefault 0 ≤ 3000 :=
  c6_delay_bounds 0 le_rfl zero_lt_one

/-- C8 counterexample: the fixture request (`type="D+1"`,
`service="Netflix Premium"`, `value="14.90"`,
`pixKey="email@exemplo.com"`), handled while connected, produces exactly
one send — but its text does not contain the fourth value `"D+1"`, which
only selects the template and is never interpolated, so "contains all
four interpolated values" is false. -/
theorem c8_counterexample :
    sentTexts (notifyBillingHandler ⟨true, true⟩ 0 billingFixture).2 = [billingFixtureMessage]
      ∧ containsSub "D+1".data billingFixtureMessage = false := by
  exact ⟨by decide, by decide⟩

/-- C8 (amended): for any anti-spam draw, the fixture request handled
while connected produces exactly one send invocation, whose text contains
the three interpolated values — the service name, the value string
`"14.90"` exactly as given (not locale-reformatted), and the Pix key. -/
theorem c8_billing_overdue_send (r : ℚ) :
    sentTexts (notifyBillingHandler ⟨true, true⟩ r billingFixture).2 = [billingFixtureMessage]
      ∧ containsSub "Netflix Premium".data billingFixtureMessage = true
      ∧ containsSub "14.90".data billingFixtureMessage = true
      ∧ containsSub "email@exemplo.com".data billingFixtureMessage = true := by
  refine ⟨rfl, by decide, by decide, by decide⟩

/-- C10: both POST endpoints validate field truthiness, not key presence:
any required field that is present but falsy (empty string, `0`, `false`,
`null`) triggers the 400 missing-fields response with no effects — in
particular `send` is never invoked. -/
theorem c10_falsy_field_validation :
    (∀ (conn : ConnState) (r : ℚ) (b : OtpBody),
        truthy b.number = false ∨ truthy b.code = false →
        sendOtpHandler conn r b
          = (errorResponse 400 "Missing required fields: number, code".data, []))
      ∧ (∀ (conn : ConnState) (r : ℚ) (b : BillingBody),
        truthy b.number = false ∨ truthy b.type = false ∨ truthy b.service = false
          ∨ truthy b.value = false ∨ truthy b.pixKey = false →
        notifyBillingHandler conn r b
          = (errorResponse 400
              "Missing required fields: number, type, service, value, pixKey".data, [])) := by
  constructor
  · intro conn r b h
    rcases h with h | h <;> simp [sendOtpHandler, h]
  · intro conn r b h
    rcases h with h | h | h | h | h <;> simp [notifyBillingHandler, h]

/-- Witness for C10: `/v1/send-otp` with `code` present but equal to the
number `0` is rejected with the missing-fields response and no send. -/
theorem c10_falsy_field_validation_witness :
    sendOtpHandler ⟨true, true⟩ 0 ⟨.vStr "11999999999".data, .vNum 0⟩
      = (errorResponse 400 "Missing required fields: number, code".data, []) :=
  c10_falsy_field_validation.1 ⟨true, true⟩ 0 ⟨.vStr "11999999999".data, .vNum 0⟩
    (Or.inr (by decide))

end ApiWp
